import Mathlib

/-!
Verification development for the ETH-XGaze-Tech training orchestrator
(`src/trainer.py`).  The Python code is a sequential training loop over an
external tensor library; we embed its control flow shallowly:

* configuration and trainer state are records (`Config`, `TrainerState`);
* the file system holding checkpoints is an association list from paths to
  `Checkpoint` records;
* `Trainer.train` is modelled as a function producing the successor state,
  the file system, and a trace of `TrainEvent`s (one event per observable
  action: training an epoch, saving a checkpoint, stepping the scheduler,
  loading a checkpoint);
* the effect of one epoch of gradient descent on the model and optimizer is
  abstracted by function parameters `fm`, `fo` acting only on those fields
  (the Python method never assigns any other trainer attribute used here);
* numpy float values are modelled as rationals where the code only moves
  them around, and as real numbers for the trigonometric angular-error
  formula.
-/

namespace GazeTrainer

/-- Configuration record: the command-line arguments consumed by
`Trainer.__init__` (src/trainer.py lines 27-106). -/
structure Config where
  is_train : Bool
  batch_size : Nat
  epochs : Nat
  init_lr : ℚ
  lr_patience : Nat
  lr_decay_factor : ℚ
  use_gpu : Bool
  ckpt_dir : String
  print_freq : Nat
  pre_trained_model_path : String
  in_stride : Nat
  model_name : String
  warmup_epochs : Nat
  continue_train : Bool
  contiue_train_model_path : String
deriving Repr

/-- The closed set of model variants the constructor can build
(src/trainer.py lines 60-78). -/
inductive ModelVariant where
  | face_res50
  | multi_region_res50
  | multi_region_res50_share_eyenet
  | face_poolformer24
deriving DecidableEq, Repr

/-- Embedding of the model-selection chain in `Trainer.__init__`
(src/trainer.py lines 57-80): `self.model` starts as `None` and each
`if`/`elif` branch assigns the matching variant; the final `assert`
fires exactly when the result is still `None`. -/
def buildModel (model_name : String) : Option ModelVariant :=
  if model_name = "face_res50" then some ModelVariant.face_res50
  else if model_name = "multi_region_res50" then some ModelVariant.multi_region_res50
  else if model_name = "multi_region_res50_share_eyenet" then
    some ModelVariant.multi_region_res50_share_eyenet
  else if model_name = "face_poolformer24" then some ModelVariant.face_poolformer24
  else none

/-- The four recognized model names, in source order. -/
def modelNames : List String :=
  ["face_res50", "multi_region_res50", "multi_region_res50_share_eyenet",
   "face_poolformer24"]

/-- Mutable trainer attributes relevant to `train`, `save_checkpoint` and
`load_checkpoint` (src/trainer.py lines 27-110).  The model parameters are a
name-to-value association list (a state dict with scalar entries), optimizer
state is an abstract scalar blob, scheduler state is its step counter. -/
structure TrainerState where
  epochs : Nat
  start_epoch : Nat
  lr : ℚ
  continue_train : Bool
  contiue_train_model_path : String
  ckpt_dir : String
  model_state : List (String × ℚ)
  optim_state : ℚ
  sched_state : Nat
  train_iter : Nat
deriving DecidableEq, Repr

/-- Embedding of `Trainer.__init__` (src/trainer.py lines 17-110): builds
the model by name (returning `none` exactly when the `assert` on line 80
fires), then initializes the training attributes: `start_epoch = 0`
(line 40), `lr = config.init_lr` (line 41), fresh optimizer and scheduler
(lines 90-101).  `initParams` stands for the freshly initialized model
parameters. -/
def mkTrainer (config : Config) (initParams : List (String × ℚ)) :
    Option (ModelVariant × TrainerState) :=
  match buildModel config.model_name with
  | none => none
  | some v =>
      some (v,
        { epochs := config.epochs
          start_epoch := 0
          lr := config.init_lr
          continue_train := config.continue_train
          contiue_train_model_path := config.contiue_train_model_path
          ckpt_dir := config.ckpt_dir
          model_state := initParams
          optim_state := 0
          sched_state := 0
          train_iter := 0 })

/-- Claim C7: trainer construction fails via the assertion exactly when the
configured model name is outside the closed four-element set, and each of the
four names selects its corresponding model variant. -/
theorem construction_model_name_assertion (c : Config) (initParams : List (String × ℚ)) :
    ((mkTrainer c initParams).isSome ↔ c.model_name ∈ modelNames) ∧
    buildModel "face_res50" = some ModelVariant.face_res50 ∧
    buildModel "multi_region_res50" = some ModelVariant.multi_region_res50 ∧
    buildModel "multi_region_res50_share_eyenet" =
      some ModelVariant.multi_region_res50_share_eyenet ∧
    buildModel "face_poolformer24" = some ModelVariant.face_poolformer24 := by
  refine ⟨?_, by decide, by decide, by decide, by decide⟩
  have h : (mkTrainer c initParams).isSome = (buildModel c.model_name).isSome := by
    unfold mkTrainer
    cases buildModel c.model_name <;> simp
  rw [h]
  unfold buildModel
  split_ifs with h1 h2 h3 h4 <;> simp_all [modelNames]

/-- Checkpoint record saved by `Trainer.train` (src/trainer.py lines
140-144): epoch index plus one, model state dict, optimizer state, and
scheduler state (the source spells the key `scheule_state`). -/
structure Checkpoint where
  epoch : Nat
  model_state : List (String × ℚ)
  optim_state : ℚ
  scheule_state : Nat
deriving DecidableEq, Repr

/-- The file system seen by `torch.save` and `torch.load`: an association
list from paths to checkpoint records, most recent write first. -/
abbrev FileSystem := List (String × Checkpoint)

/-- Embedding of `Trainer.save_checkpoint` (src/trainer.py lines 250-261):
the file name is the tag followed by the fixed extension (or the default
name when no tag is given), joined to the checkpoint directory, and the
state record is written there. -/
def save_checkpoint (fs : FileSystem) (ckpt_dir : String) (state : Checkpoint)
    (add : Option String) : FileSystem :=
  let filename := match add with
    | some a => a ++ "_ckpt.pth.tar"
    | none => "ckpt.pth.tar"
  (ckpt_dir ++ "/" ++ filename, state) :: fs

/-- Semantics of `model.load_state_dict(ckpt, strict)` as used by
`Trainer.load_checkpoint` (src/trainer.py line 271): with `strict = true`
the key sets must coincide, otherwise loading fails; each current parameter
whose key occurs in the checkpoint takes the checkpoint value, missing and
unexpected keys are tolerated silently when `strict = false`. -/
def mergeStateDict (cur ckpt : List (String × ℚ)) : List (String × ℚ) :=
  cur.map (fun kv => (kv.1, ((ckpt.lookup kv.1).getD kv.2)))

/-- Strict-aware state dict loading: `none` models the exception raised by
a strict key mismatch. -/
def loadStateDict (is_strict : Bool) (cur ckpt : List (String × ℚ)) :
    Option (List (String × ℚ)) :=
  if is_strict &&
      !((cur.map Prod.fst).all (fun k => (ckpt.map Prod.fst).contains k) &&
        (ckpt.map Prod.fst).all (fun k => (cur.map Prod.fst).contains k)) then
    none
  else
    some (mergeStateDict cur ckpt)

/-- Embedding of `Trainer.load_checkpoint` (src/trainer.py lines 263-279):
reading a missing file raises (modelled by `none`); otherwise the model,
optimizer and scheduler state are restored from the record and
`start_epoch` is set to the stored epoch. -/
def load_checkpoint (fs : FileSystem) (input_file_path : String)
    (is_strict : Bool) (st : TrainerState) : Option TrainerState :=
  match fs.lookup input_file_path with
  | none => none
  | some ckpt =>
      match loadStateDict is_strict st.model_state ckpt.model_state with
      | none => none
      | some m =>
          some { st with
                  model_state := m
                  optim_state := ckpt.optim_state
                  sched_state := ckpt.scheule_state
                  start_epoch := ckpt.epoch }

/-- The state record `Trainer.train` passes to `save_checkpoint` at epoch
`epoch` (src/trainer.py lines 140-144): note the stored epoch is
`epoch + 1`. -/
def trainCkpt (epoch : Nat) (st : TrainerState) : Checkpoint :=
  { epoch := epoch + 1
    model_state := st.model_state
    optim_state := st.optim_state
    scheule_state := st.sched_state }

/-- Checkpoint file tag built on src/trainer.py line 137:
`add_file_name = 'epoch_' + str(epoch) + '_' + str(self.lr)`. -/
def add_file_name (epoch : Nat) (lr : ℚ) : String :=
  "epoch_" ++ toString epoch ++ "_" ++ toString lr

/-- Observable actions of `Trainer.train`, in execution order.  A
`savedCheckpoint` event carries the epoch index and the learning-rate
component of the file tag. -/
inductive TrainEvent where
  | trainedEpoch : Nat → TrainEvent
  | savedCheckpoint : Nat → ℚ → TrainEvent
  | schedulerStep : TrainEvent
  | loadedCheckpoint : String → Bool → TrainEvent
deriving DecidableEq, Repr

/-- Effect of `Trainer.train_one_epoch` on the trainer attributes
(src/trainer.py lines 149-209): the gradient steps update the model
parameters and the optimizer state (abstracted by `fm` and `fo`) and the
iteration counter advances; no other attribute is assigned. -/
def trainOneEpochState (fm : List (String × ℚ) → List (String × ℚ))
    (fo : ℚ → ℚ) (st : TrainerState) : TrainerState :=
  { st with
      model_state := fm st.model_state
      optim_state := fo st.optim_state
      train_iter := st.train_iter + 1 }

/-- One iteration of the epoch loop in `Trainer.train` (src/trainer.py
lines 122-146): train one epoch, then save a checkpoint when
`epoch % 5 == 4`, then step the scheduler. -/
def epochStep (fm : List (String × ℚ) → List (String × ℚ)) (fo : ℚ → ℚ)
    (st : TrainerState) (fs : FileSystem) (epoch : Nat) :
    TrainerState × FileSystem × List TrainEvent :=
  let st1 := trainOneEpochState fm fo st
  let fs1 := if epoch % 5 = 4 then
      save_checkpoint fs st1.ckpt_dir (trainCkpt epoch st1)
        (some (add_file_name epoch st1.lr))
    else fs
  let evs := [TrainEvent.trainedEpoch epoch] ++
      (if epoch % 5 = 4 then [TrainEvent.savedCheckpoint epoch st1.lr] else []) ++
      [TrainEvent.schedulerStep]
  ({ st1 with sched_state := st1.sched_state + 1 }, fs1, evs)

/-- The epoch loop of `Trainer.train` over a list of epoch indices. -/
def trainEpochs (fm : List (String × ℚ) → List (String × ℚ)) (fo : ℚ → ℚ)
    (st : TrainerState) (fs : FileSystem) :
    List Nat → TrainerState × FileSystem × List TrainEvent
  | [] => (st, fs, [])
  | e :: rest =>
      let r1 := epochStep fm fo st fs e
      let r2 := trainEpochs fm fo r1.1 r1.2.1 rest
      (r2.1, r2.2.1, r1.2.2 ++ r2.2.2)

/-- Embedding of `Trainer.train` (src/trainer.py lines 112-146): when
`continue_train` is set, first restore state from the named checkpoint with
`is_strict=False` (line 118) and extend `epochs` by the restored
`start_epoch` (line 119); then run the epoch loop over
`range(start_epoch, epochs)`. -/
def Trainer.train (fm : List (String × ℚ) → List (String × ℚ)) (fo : ℚ → ℚ)
    (st : TrainerState) (fs : FileSystem) :
    Option (TrainerState × FileSystem × List TrainEvent) :=
  if st.continue_train then
    match load_checkpoint fs st.contiue_train_model_path false st with
    | none => none
    | some st1 =>
        let st2 := { st1 with epochs := st1.epochs + st1.start_epoch }
        let r := trainEpochs fm fo st2 fs
          (List.range' st2.start_epoch (st2.epochs - st2.start_epoch))
        some (r.1, r.2.1,
          TrainEvent.loadedCheckpoint st.contiue_train_model_path false :: r.2.2)
  else
    let r := trainEpochs fm fo st fs
      (List.range' st.start_epoch (st.epochs - st.start_epoch))
    some (r.1, r.2.1, r.2.2)

/-- The events produced by one epoch of the loop, in order. -/
def epochTrace (lr : ℚ) (e : Nat) : List TrainEvent :=
  [TrainEvent.trainedEpoch e] ++
    (if e % 5 = 4 then [TrainEvent.savedCheckpoint e lr] else []) ++
    [TrainEvent.schedulerStep]

/-- Projection extracting the epoch index of a `trainedEpoch` event. -/
def trainedIdx : TrainEvent → Option Nat
  | TrainEvent.trainedEpoch e => some e
  | _ => none

theorem epochStep_lr (fm : List (String × ℚ) → List (String × ℚ)) (fo : ℚ → ℚ)
    (st : TrainerState) (fs : FileSystem) (e : Nat) :
    (epochStep fm fo st fs e).1.lr = st.lr := rfl

theorem epochStep_trace (fm : List (String × ℚ) → List (String × ℚ)) (fo : ℚ → ℚ)
    (st : TrainerState) (fs : FileSystem) (e : Nat) :
    (epochStep fm fo st fs e).2.2 = epochTrace st.lr e := rfl

theorem trainEpochs_lr (fm : List (String × ℚ) → List (String × ℚ)) (fo : ℚ → ℚ)
    (es : List Nat) : ∀ (st : TrainerState) (fs : FileSystem),
    (trainEpochs fm fo st fs es).1.lr = st.lr := by
  induction es with
  | nil => intro st fs; rfl
  | cons e rest ih =>
      intro st fs
      simp only [trainEpochs]
      rw [ih]
      exact epochStep_lr fm fo st fs e

/-- The trace of the epoch loop is the concatenation of the per-epoch
traces, all tagged with the (invariant) learning rate of the entry state. -/
theorem trainEpochs_trace (fm : List (String × ℚ) → List (String × ℚ)) (fo : ℚ → ℚ)
    (es : List Nat) : ∀ (st : TrainerState) (fs : FileSystem),
    (trainEpochs fm fo st fs es).2.2 = es.flatMap (epochTrace st.lr) := by
  induction es with
  | nil => intro st fs; rfl
  | cons e rest ih =>
      intro st fs
      simp only [trainEpochs, List.flatMap_cons]
      rw [ih, epochStep_trace, epochStep_lr]

/-- Each epoch block contributes exactly its own index as a trained epoch. -/
theorem flatMap_epochTrace_trainedIdx (lr : ℚ) (es : List Nat) :
    (es.flatMap (epochTrace lr)).filterMap trainedIdx = es := by
  induction es with
  | nil => rfl
  | cons e rest ih =>
      by_cases h : e % 5 = 4 <;>
        simp [epochTrace, trainedIdx, h, ih]

/-- Membership of a save event in the loop trace. -/
theorem savedCheckpoint_mem_flatMap (lr : ℚ) (es : List Nat) (e : Nat) (l : ℚ) :
    TrainEvent.savedCheckpoint e l ∈ es.flatMap (epochTrace lr) ↔
      (e ∈ es ∧ e % 5 = 4 ∧ l = lr) := by
  induction es with
  | nil => simp
  | cons a rest ih =>
      by_cases h : a % 5 = 4
      · simp only [List.flatMap_cons, List.mem_append, ih, List.mem_cons]
        constructor
        · intro hc
          rcases hc with hc | hc
          · simp [epochTrace, h] at hc
            exact ⟨Or.inl hc.1, by rw [hc.1]; exact h, hc.2⟩
          · exact ⟨Or.inr hc.1, hc.2.1, hc.2.2⟩
        · intro ⟨hmem, h5, hl⟩
          rcases hmem with rfl | hmem
          · exact Or.inl (by simp [epochTrace, h, hl])
          · exact Or.inr ⟨hmem, h5, hl⟩
      · simp only [List.flatMap_cons, List.mem_append, ih, List.mem_cons]
        constructor
        · intro hc
          rcases hc with hc | hc
          · simp [epochTrace, h] at hc
          · exact ⟨Or.inr hc.1, hc.2.1, hc.2.2⟩
        · intro ⟨hmem, h5, hl⟩
          rcases hmem with rfl | hmem
          · exact absurd h5 h
          · exact Or.inr ⟨hmem, h5, hl⟩

theorem trainEpochs_epochs (fm : List (String × ℚ) → List (String × ℚ)) (fo : ℚ → ℚ)
    (es : List Nat) : ∀ (st : TrainerState) (fs : FileSystem),
    (trainEpochs fm fo st fs es).1.epochs = st.epochs := by
  induction es with
  | nil => intro st fs; rfl
  | cons e rest ih =>
      intro st fs
      simp only [trainEpochs]
      rw [ih]
      rfl

/-- Claim C1: with `start_epoch = 0` and no continue-training, `train`
runs exactly `epochs` training epochs `0 .. epochs-1` in order, saves a
checkpoint exactly at the epoch indices congruent to 4 mod 5, and each
epoch performs train, then the conditional save, then one scheduler step
(captured by the per-epoch trace shape `epochTrace`). -/
theorem train_epoch_loop (fm : List (String × ℚ) → List (String × ℚ)) (fo : ℚ → ℚ)
    (st : TrainerState) (fs : FileSystem)
    (h0 : st.start_epoch = 0) (hc : st.continue_train = false) :
    ∃ st' fs', Trainer.train fm fo st fs =
        some (st', fs', (List.range st.epochs).flatMap (epochTrace st.lr)) ∧
      ((List.range st.epochs).flatMap (epochTrace st.lr)).filterMap trainedIdx =
        List.range st.epochs ∧
      (∀ e l, TrainEvent.savedCheckpoint e l ∈
          (List.range st.epochs).flatMap (epochTrace st.lr) ↔
        (e < st.epochs ∧ e % 5 = 4 ∧ l = st.lr)) := by
  refine ⟨(trainEpochs fm fo st fs (List.range st.epochs)).1,
    (trainEpochs fm fo st fs (List.range st.epochs)).2.1, ?_, ?_, ?_⟩
  · simp only [Trainer.train, hc, Bool.false_eq_true, if_false, h0, Nat.sub_zero,
      ← List.range_eq_range']
    rw [trainEpochs_trace]
  · exact flatMap_epochTrace_trainedIdx st.lr (List.range st.epochs)
  · intro e l
    rw [savedCheckpoint_mem_flatMap, List.mem_range]

/-- Sample trainer state for concrete runs: six epochs from scratch. -/
def wState : TrainerState :=
  { epochs := 6
    start_epoch := 0
    lr := 1/10
    continue_train := false
    contiue_train_model_path := ""
    ckpt_dir := "ckpt"
    model_state := [("w", 1)]
    optim_state := 0
    sched_state := 0
    train_iter := 0 }

theorem train_epoch_loop_witness :
    ∃ st' fs', Trainer.train id id wState [] =
        some (st', fs', (List.range wState.epochs).flatMap (epochTrace wState.lr)) ∧
      ((List.range wState.epochs).flatMap (epochTrace wState.lr)).filterMap trainedIdx =
        List.range wState.epochs ∧
      (∀ e l, TrainEvent.savedCheckpoint e l ∈
          (List.range wState.epochs).flatMap (epochTrace wState.lr) ↔
        (e < wState.epochs ∧ e % 5 = 4 ∧ l = wState.lr)) :=
  train_epoch_loop id id wState [] rfl rfl

/-- Claim C2: with `continue_train` set and the named checkpoint present,
`train` first restores model, optimizer, scheduler state and `start_epoch`
from the checkpoint with non-strict parameter matching, sets the effective
final epoch to `epochs + start_epoch`, and then runs exactly the original
`epochs` many further training epochs `S .. S+epochs-1`. -/
theorem train_continue_extension (fm : List (String × ℚ) → List (String × ℚ))
    (fo : ℚ → ℚ) (st : TrainerState) (fs : FileSystem) (ckpt : Checkpoint)
    (hc : st.continue_train = true)
    (hfind : fs.lookup st.contiue_train_model_path = some ckpt) :
    ∃ st' fs', Trainer.train fm fo st fs =
        some (st', fs',
          TrainEvent.loadedCheckpoint st.contiue_train_model_path false ::
            (List.range' ckpt.epoch st.epochs).flatMap (epochTrace st.lr)) ∧
      load_checkpoint fs st.contiue_train_model_path false st =
        some { st with
                model_state := mergeStateDict st.model_state ckpt.model_state
                optim_state := ckpt.optim_state
                sched_state := ckpt.scheule_state
                start_epoch := ckpt.epoch } ∧
      st'.epochs = st.epochs + ckpt.epoch ∧
      ((List.range' ckpt.epoch st.epochs).flatMap (epochTrace st.lr)).filterMap
        trainedIdx = List.range' ckpt.epoch st.epochs ∧
      (List.range' ckpt.epoch st.epochs).length = st.epochs := by
  have hload : load_checkpoint fs st.contiue_train_model_path false st =
      some { st with
              model_state := mergeStateDict st.model_state ckpt.model_state
              optim_state := ckpt.optim_state
              sched_state := ckpt.scheule_state
              start_epoch := ckpt.epoch } := by
    simp [load_checkpoint, hfind, loadStateDict]
  simp only [Trainer.train, hc, if_true, hload]
  simp only [Nat.add_sub_cancel]
  rw [trainEpochs_trace]
  refine ⟨_, _, rfl, trivial, ?_, ?_, ?_⟩
  · rw [trainEpochs_epochs]
  · exact flatMap_epochTrace_trainedIdx _ (List.range' ckpt.epoch st.epochs)
  · simp

/-- Sample checkpoint resumed from epoch 2. -/
def wCkpt : Checkpoint :=
  { epoch := 2, model_state := [("w", 5)], optim_state := 7, scheule_state := 3 }

/-- Sample trainer state that resumes training from `wCkpt`. -/
def wStateResume : TrainerState :=
  { epochs := 3
    start_epoch := 0
    lr := 1/10
    continue_train := true
    contiue_train_model_path := "ckpt/old.pth.tar"
    ckpt_dir := "ckpt"
    model_state := [("w", 1)]
    optim_state := 0
    sched_state := 0
    train_iter := 0 }

/-- Sample file system holding the resume checkpoint. -/
def wFS : FileSystem := [("ckpt/old.pth.tar", wCkpt)]

theorem train_continue_extension_witness :
    ∃ st' fs', Trainer.train id id wStateResume wFS =
        some (st', fs',
          TrainEvent.loadedCheckpoint wStateResume.contiue_train_model_path false ::
            (List.range' wCkpt.epoch wStateResume.epochs).flatMap
              (epochTrace wStateResume.lr)) ∧
      load_checkpoint wFS wStateResume.contiue_train_model_path false wStateResume =
        some { wStateResume with
                model_state := mergeStateDict wStateResume.model_state wCkpt.model_state
                optim_state := wCkpt.optim_state
                sched_state := wCkpt.scheule_state
                start_epoch := wCkpt.epoch } ∧
      st'.epochs = wStateResume.epochs + wCkpt.epoch ∧
      ((List.range' wCkpt.epoch wStateResume.epochs).flatMap
        (epochTrace wStateResume.lr)).filterMap trainedIdx =
        List.range' wCkpt.epoch wStateResume.epochs ∧
      (List.range' wCkpt.epoch wStateResume.epochs).length = wStateResume.epochs :=
  train_continue_extension id id wStateResume wFS wCkpt rfl (by decide)

/-- Loading a state dict whose keys coincide (in order, without
duplicates) with the current ones restores exactly the stored mapping. -/
theorem mergeStateDict_eq_of_keys (cur : List (String × ℚ)) :
    ∀ saved : List (String × ℚ),
    cur.map Prod.fst = saved.map Prod.fst →
    (saved.map Prod.fst).Nodup →
    mergeStateDict cur saved = saved := by
  induction cur with
  | nil =>
      intro saved hkeys _
      cases saved with
      | nil => rfl
      | cons b bs => simp at hkeys
  | cons a as ih =>
      intro saved hkeys hnodup
      cases saved with
      | nil => simp at hkeys
      | cons b bs =>
          simp only [List.map_cons, List.cons.injEq] at hkeys
          obtain ⟨hk, htl⟩ := hkeys
          simp only [List.map_cons, List.nodup_cons] at hnodup
          obtain ⟨hnb, hnbs⟩ := hnodup
          unfold mergeStateDict
          simp only [List.map_cons]
          have hhead : (List.lookup a.1 (b :: bs)).getD a.2 = b.2 := by
            simp [List.lookup, hk]
          have htail : as.map
              (fun kv => (kv.1, (List.lookup kv.1 (b :: bs)).getD kv.2)) =
              mergeStateDict as bs := by
            apply List.map_congr_left
            intro kv hkv
            have hmem : kv.1 ∈ bs.map Prod.fst := by
              rw [← htl]
              exact List.mem_map_of_mem Prod.fst hkv
            have hne : kv.1 ≠ b.1 := fun h => hnb (h ▸ hmem)
            have hbeq : (kv.1 == b.1) = false := beq_eq_false_iff_ne.mpr hne
            simp [List.lookup, mergeStateDict, hbeq]
          rw [hhead, htail, ih bs htl hnbs, hk]

/-- Claim C3: saving the state record built at training epoch `e` and then
loading the produced file restores the saved parameter mapping, optimizer
and scheduler state, and sets the resume epoch to `e + 1`.  The loading
trainer may be any trainer whose model has the same parameter keys. -/
theorem checkpoint_round_trip (st st2 : TrainerState) (fs : FileSystem)
    (e : Nat) (tag : String)
    (hkeys : st2.model_state.map Prod.fst = st.model_state.map Prod.fst)
    (hnodup : (st.model_state.map Prod.fst).Nodup) :
    load_checkpoint (save_checkpoint fs st.ckpt_dir (trainCkpt e st) (some tag))
        (st.ckpt_dir ++ "/" ++ (tag ++ "_ckpt.pth.tar")) false st2 =
      some { st2 with
              model_state := st.model_state
              optim_state := st.optim_state
              sched_state := st.sched_state
              start_epoch := e + 1 } := by
  have hpath : List.lookup (st.ckpt_dir ++ "/" ++ (tag ++ "_ckpt.pth.tar"))
      (save_checkpoint fs st.ckpt_dir (trainCkpt e st) (some tag)) =
      some (trainCkpt e st) := by
    simp [save_checkpoint, List.lookup]
  rw [load_checkpoint, hpath]
  simp only [loadStateDict, Bool.false_and, Bool.false_eq_true, if_false]
  rw [mergeStateDict_eq_of_keys st2.model_state (trainCkpt e st).model_state
    hkeys hnodup]
  rfl

/-- Sample saved trainer state for the round-trip run. -/
def wSaver : TrainerState :=
  { epochs := 10
    start_epoch := 0
    lr := 1
    continue_train := false
    contiue_train_model_path := ""
    ckpt_dir := "ckpt"
    model_state := [("w", 3), ("b", 4)]
    optim_state := 9
    sched_state := 2
    train_iter := 7 }

theorem checkpoint_round_trip_witness :
    load_checkpoint
        (save_checkpoint [] wSaver.ckpt_dir (trainCkpt 4 wSaver) (some "tag"))
        (wSaver.ckpt_dir ++ "/" ++ ("tag" ++ "_ckpt.pth.tar")) false wSaver =
      some { wSaver with
              model_state := wSaver.model_state
              optim_state := wSaver.optim_state
              sched_state := wSaver.sched_state
              start_epoch := 4 + 1 } :=
  checkpoint_round_trip wSaver wSaver [] 4 "tag" rfl (by decide)

theorem load_checkpoint_lr (fs : FileSystem) (p : String) (b : Bool)
    (st st1 : TrainerState) (h : load_checkpoint fs p b st = some st1) :
    st1.lr = st.lr := by
  unfold load_checkpoint at h
  split at h
  · cases h
  · split at h
    · cases h
    · injection h with h2
      rw [← h2]

/-- Claim C10: the stored learning rate is set once at construction from
`config.init_lr` and never mutated: after any (successful) `train` run the
trainer still holds the initial learning rate, and every checkpoint file
tag produced during the run carries that same initial learning rate, even
though the scheduler stepped the optimizer each epoch. -/
theorem lr_set_once_never_mutated (c : Config) (ip : List (String × ℚ))
    (v : ModelVariant) (st0 : TrainerState)
    (fm : List (String × ℚ) → List (String × ℚ)) (fo : ℚ → ℚ)
    (st st' : TrainerState) (fs fs' : FileSystem) (tr : List TrainEvent)
    (hmk : mkTrainer c ip = some (v, st0))
    (htr : Trainer.train fm fo st fs = some (st', fs', tr)) :
    st0.lr = c.init_lr ∧ st'.lr = st.lr ∧
      ∀ e l, TrainEvent.savedCheckpoint e l ∈ tr → l = st.lr := by
  refine ⟨?_, ?_⟩
  · unfold mkTrainer at hmk
    cases hbm : buildModel c.model_name with
    | none => rw [hbm] at hmk; cases hmk
    | some v2 =>
        rw [hbm] at hmk
        injection hmk with h2
        injection h2 with hv hst0
        rw [← hst0]
  · unfold Trainer.train at htr
    cases hcont : st.continue_train with
    | false =>
        rw [hcont] at htr
        simp only [Bool.false_eq_true, if_false] at htr
        injection htr with h2
        have hst : st' = (trainEpochs fm fo st fs
            (List.range' st.start_epoch (st.epochs - st.start_epoch))).1 :=
          (congrArg Prod.fst h2).symm
        have htrace : tr = (trainEpochs fm fo st fs
            (List.range' st.start_epoch (st.epochs - st.start_epoch))).2.2 :=
          (congrArg (fun x => x.2.2) h2).symm
        constructor
        · rw [hst, trainEpochs_lr]
        · intro e l hmem
          rw [htrace, trainEpochs_trace] at hmem
          exact ((savedCheckpoint_mem_flatMap st.lr _ e l).mp hmem).2.2
    | true =>
        rw [hcont] at htr
        simp only [if_true] at htr
        cases hload : load_checkpoint fs st.contiue_train_model_path false st with
        | none => rw [hload] at htr; cases htr
        | some st1 =>
            rw [hload] at htr
            injection htr with h2
            have hlr1 : st1.lr = st.lr := load_checkpoint_lr _ _ _ _ _ hload
            have hst : st' = (trainEpochs fm fo
                { st1 with epochs := st1.epochs + st1.start_epoch } fs
                (List.range' st1.start_epoch
                  (st1.epochs + st1.start_epoch - st1.start_epoch))).1 :=
              (congrArg Prod.fst h2).symm
            have htrace : tr =
                TrainEvent.loadedCheckpoint st.contiue_train_model_path false ::
                (trainEpochs fm fo
                  { st1 with epochs := st1.epochs + st1.start_epoch } fs
                  (List.range' st1.start_epoch
                    (st1.epochs + st1.start_epoch - st1.start_epoch))).2.2 :=
              (congrArg (fun x => x.2.2) h2).symm
            constructor
            · rw [hst, trainEpochs_lr]
              exact hlr1
            · intro e l hmem
              rw [htrace] at hmem
              cases hmem with
              | tail _ hmem2 =>
                  rw [trainEpochs_trace] at hmem2
                  have := ((savedCheckpoint_mem_flatMap _ _ e l).mp hmem2).2.2
                  rw [this]
                  exact hlr1

/-- Sample configuration selecting the `face_res50` variant. -/
def wConfig : Config :=
  { is_train := true
    batch_size := 16
    epochs := 10
    init_lr := 3
    lr_patience := 10
    lr_decay_factor := 1
    use_gpu := false
    ckpt_dir := "ckpt"
    print_freq := 100
    pre_trained_model_path := ""
    in_stride := 2
    model_name := "face_res50"
    warmup_epochs := 0
    continue_train := false
    contiue_train_model_path := "" }

/-- The trainer state `mkTrainer wConfig []` constructs. -/
def wInit0 : TrainerState :=
  { epochs := 10
    start_epoch := 0
    lr := 3
    continue_train := false
    contiue_train_model_path := ""
    ckpt_dir := "ckpt"
    model_state := []
    optim_state := 0
    sched_state := 0
    train_iter := 0 }

/-- Five-epoch run from scratch, reaching one checkpoint save at epoch 4. -/
def wStateFive : TrainerState :=
  { epochs := 5
    start_epoch := 0
    lr := 1
    continue_train := false
    contiue_train_model_path := ""
    ckpt_dir := "ckpt"
    model_state := []
    optim_state := 0
    sched_state := 0
    train_iter := 0 }

/-- Final state of the five-epoch run. -/
def wStateFiveFinal : TrainerState :=
  { wStateFive with sched_state := 5, train_iter := 5 }

/-- File system after the five-epoch run: one checkpoint from epoch 4. -/
def wFSFive : FileSystem :=
  [("ckpt" ++ "/" ++ (add_file_name 4 1 ++ "_ckpt.pth.tar"),
    { epoch := 5, model_state := [], optim_state := 0, scheule_state := 4 })]

/-- Event trace of the five-epoch run. -/
def wTraceFive : List TrainEvent :=
  [TrainEvent.trainedEpoch 0, TrainEvent.schedulerStep,
   TrainEvent.trainedEpoch 1, TrainEvent.schedulerStep,
   TrainEvent.trainedEpoch 2, TrainEvent.schedulerStep,
   TrainEvent.trainedEpoch 3, TrainEvent.schedulerStep,
   TrainEvent.trainedEpoch 4, TrainEvent.savedCheckpoint 4 1,
   TrainEvent.schedulerStep]

theorem lr_set_once_never_mutated_witness :
    wInit0.lr = wConfig.init_lr ∧ wStateFiveFinal.lr = wStateFive.lr ∧
      ∀ e l, TrainEvent.savedCheckpoint e l ∈ wTraceFive → l = wStateFive.lr :=
  lr_set_once_never_mutated wConfig [] ModelVariant.face_res50 wInit0 id id
    wStateFive wStateFiveFinal [] wFSFive wTraceFive (by decide) (by decide)

/-- One sample of the test loader: the image crops available to a batch
element (tensors abstracted as rationals). -/
structure TestInput where
  face : ℚ
  left_eye : ℚ
  right_eye : ℚ
deriving DecidableEq, Repr

/-- The model as a prediction capability: one entry point per input shape
(single face image, or left eye / right eye / face). -/
structure GazeModel where
  single : ℚ → ℚ × ℚ
  multi : ℚ → ℚ → ℚ → ℚ × ℚ

/-- The `load_mode` branch shared by `Trainer.train_one_epoch`
(src/trainer.py lines 160-167) and `Trainer.test` (lines 230-237): under
`load_single_face` the model is applied to the face crop, under
`load_multi_region` to the three crops; any other string leaves `pred_gaze`
unassigned, so the following use of it raises — modelled by `none`. -/
def computePred (m : GazeModel) (load_mode : String) (x : TestInput) :
    Option (ℚ × ℚ) :=
  if load_mode = "load_single_face" then some (m.single x.face)
  else if load_mode = "load_multi_region" then
    some (m.multi x.left_eye x.right_eye x.face)
  else none

/-- Predictions for a whole batch; `none` as soon as one element fails. -/
def batchPreds (m : GazeModel) (load_mode : String) (batch : List TestInput) :
    Option (List (ℚ × ℚ)) :=
  batch.mapM (computePred m load_mode)

/-- Numpy slice assignment
`pred_gaze_all[save_index:save_index+batch_size, :] = rows`
(src/trainer.py line 239): the slice is clipped to the end of the buffer,
and the assignment succeeds only when the rows match the clipped slice
length (otherwise numpy raises, modelled by `none`). -/
def writeSlice (batch_size : Nat) (buf : List (ℚ × ℚ)) (s : Nat)
    (rows : List (ℚ × ℚ)) : Option (List (ℚ × ℚ)) :=
  if rows.length = min batch_size (buf.length - s) then
    some (buf.take s ++ rows ++ buf.drop (s + rows.length))
  else none

/-- The batch loop of `Trainer.test` (src/trainer.py lines 228-241):
predict each batch, write it into the preallocated buffer at
`save_index`, and advance `save_index` by the actual batch size. -/
def testLoop (m : GazeModel) (lm : String) (bs : Nat) :
    List (ℚ × ℚ) → Nat → List (List TestInput) → Option (List (ℚ × ℚ) × Nat)
  | buf, s, [] => some (buf, s)
  | buf, s, batch :: rest =>
      match batchPreds m lm batch with
      | none => none
      | some rows =>
          match writeSlice bs buf s rows with
          | none => none
          | some buf2 => testLoop m lm bs buf2 (s + batch.length) rest

/-- Observable outcome of `Trainer.test`: the rows written to
`within_eva_results.txt`, the final `save_index`, whether the mismatch
warning was printed, and whether the results file was written. -/
structure TestOutcome where
  rows : List (ℚ × ℚ)
  save_index : Nat
  warned : Bool
  file_written : Bool
deriving DecidableEq, Repr

/-- Embedding of `Trainer.test` (src/trainer.py lines 213-247): the
prediction buffer is preallocated as `num_test` zero rows (line 222), the
batch loop runs, then the count mismatch is reported as a mere print
(lines 243-244) and the file is written unconditionally (line 247).
The initial checkpoint load of line 221 is elided: the loaded weights are
part of the abstract `GazeModel`. -/
def Trainer.test (m : GazeModel) (lm : String) (bs num_test : Nat)
    (batches : List (List TestInput)) : Option TestOutcome :=
  match testLoop m lm bs (List.replicate num_test ((0 : ℚ), (0 : ℚ))) 0 batches with
  | none => none
  | some r =>
      some { rows := r.1
             save_index := r.2
             warned := r.2 != num_test
             file_written := true }

/-- Batch size discipline of a sequential data loader without
`drop_last`: every batch is full except possibly the final one. -/
def batchSizesOk (bs : Nat) : List Nat → Bool
  | [] => true
  | [b] => decide (b ≤ bs)
  | b :: rest => (b == bs) && batchSizesOk bs rest

theorem mapM_isSome_length {α β : Type} (f : α → Option β) (l : List α)
    (h : ∀ x ∈ l, (f x).isSome) :
    ∃ ys, l.mapM f = some ys ∧ ys.length = l.length := by
  induction l with
  | nil => exact ⟨[], rfl, rfl⟩
  | cons a l ih =>
      obtain ⟨b, hb⟩ := Option.isSome_iff_exists.mp (h a (List.mem_cons_self a l))
      obtain ⟨ys, hys, hlen⟩ := ih (fun x hx => h x (List.mem_cons_of_mem a hx))
      refine ⟨b :: ys, ?_, by simp [hlen]⟩
      rw [List.mapM_cons, hb, hys]
      rfl

theorem computePred_isSome (m : GazeModel) (lm : String) (x : TestInput)
    (hlm : lm = "load_single_face" ∨ lm = "load_multi_region") :
    (computePred m lm x).isSome := by
  rcases hlm with h | h <;> subst h <;> simp [computePred]

theorem testLoop_ok (m : GazeModel) (lm : String) (bs : Nat)
    (hlm : lm = "load_single_face" ∨ lm = "load_multi_region") :
    ∀ (batches : List (List TestInput)) (buf : List (ℚ × ℚ)) (s : Nat),
    batchSizesOk bs (batches.map List.length) = true →
    buf.length = s + (batches.map List.length).sum →
    ∃ buf2, testLoop m lm bs buf s batches =
        some (buf2, s + (batches.map List.length).sum) ∧
      buf2.length = buf.length := by
  intro batches
  induction batches with
  | nil =>
      intro buf s _ _
      exact ⟨buf, by simp [testLoop], rfl⟩
  | cons batch rest ih =>
      intro buf s hsizes hbuf
      obtain ⟨rows, hrows, hrlen⟩ := mapM_isSome_length (computePred m lm) batch
        (fun x _ => computePred_isSome m lm x hlm)
      have hrowsfit : rows.length = min bs (buf.length - s) := by
        cases rest with
        | nil =>
            have hle : batch.length ≤ bs := by
              simpa [batchSizesOk] using hsizes
            simp only [List.map_cons, List.map_nil, List.sum_cons,
              List.sum_nil] at hbuf
            rw [hrlen]
            omega
        | cons r rs =>
            have hfull : batch.length = bs ∧
                batchSizesOk bs ((r :: rs).map List.length) = true := by
              have := hsizes
              simp only [List.map_cons, batchSizesOk, Bool.and_eq_true,
                beq_iff_eq] at this ⊢
              exact this
            simp only [List.map_cons, List.sum_cons] at hbuf
            rw [hrlen, hfull.1]
            omega
      have hle2 : s + rows.length ≤ buf.length := by
        rw [hrowsfit]
        omega
      have hwrite : writeSlice bs buf s rows =
          some (buf.take s ++ rows ++ buf.drop (s + rows.length)) := by
        simp [writeSlice, hrowsfit]
      have hlen2 : (buf.take s ++ rows ++ buf.drop (s + rows.length)).length =
          buf.length := by
        simp only [List.length_append, List.length_take, List.length_drop]
        omega
      have hsizes2 : batchSizesOk bs (rest.map List.length) = true := by
        cases rest with
        | nil => rfl
        | cons r rs =>
            simp only [List.map_cons, batchSizesOk, Bool.and_eq_true,
              beq_iff_eq] at hsizes
            simpa [batchSizesOk] using hsizes.2
      have hbuf2 : (buf.take s ++ rows ++ buf.drop (s + rows.length)).length =
          (s + batch.length) + (rest.map List.length).sum := by
        rw [hlen2, hbuf]
        simp only [List.map_cons, List.sum_cons]
        omega
      obtain ⟨buf3, hloop, hblen⟩ := ih
        (buf.take s ++ rows ++ buf.drop (s + rows.length)) (s + batch.length)
        hsizes2 hbuf2
      refine ⟨buf3, ?_, by rw [hblen, hlen2]⟩
      simp only [testLoop, batchPreds] at hrows ⊢
      simp only [hrows, hwrite, hloop, List.map_cons, List.sum_cons]
      rw [Nat.add_assoc]

/-- Claim C5: over a test set of `N` samples cut into loader batches (all
full except possibly the last), the test loop completes, the final
`save_index` is `N`, the output holds exactly `N` rows, and the buffer is
never grown or overrun (its length stays `N`); this covers both the even
division case and a trailing short batch. -/
theorem test_output_row_count (m : GazeModel) (lm : String) (bs num_test : Nat)
    (batches : List (List TestInput))
    (hlm : lm = "load_single_face" ∨ lm = "load_multi_region")
    (hsizes : batchSizesOk bs (batches.map List.length) = true)
    (hsum : (batches.map List.length).sum = num_test) :
    ∃ res, Trainer.test m lm bs num_test batches = some res ∧
      res.rows.length = num_test ∧ res.save_index = num_test ∧
      res.file_written = true := by
  obtain ⟨buf2, hloop, hblen⟩ := testLoop_ok m lm bs hlm batches
    (List.replicate num_test ((0 : ℚ), (0 : ℚ))) 0 hsizes (by simp [hsum])
  rw [hsum] at hloop
  simp only [Nat.zero_add] at hloop
  refine ⟨TestOutcome.mk buf2 num_test (num_test != num_test) true, ?_, ?_, rfl, rfl⟩
  · rw [Trainer.test, hloop]
  · simpa using hblen

/-- Sample model used in concrete test runs. -/
def sampleModel : GazeModel :=
  { single := fun f => (f, f), multi := fun l r f => (l + r, f) }

/-- Sample loader element. -/
def sampleInput : TestInput := { face := 1, left_eye := 2, right_eye := 3 }

theorem test_output_row_count_witness :
    ∃ res, Trainer.test sampleModel "load_single_face" 2 3
        [[sampleInput, sampleInput], [sampleInput]] = some res ∧
      res.rows.length = 3 ∧ res.save_index = 3 ∧ res.file_written = true :=
  test_output_row_count sampleModel "load_single_face" 2 3
    [[sampleInput, sampleInput], [sampleInput]] (Or.inl rfl) (by decide) (by decide)

/-- Claim C6: whenever the test batch loop completes, the run produces a
result; the mismatch between processed samples and the expected test-set
size is only reflected in the warning flag and never prevents the result
file from being written. -/
theorem test_mismatch_warns_still_writes (m : GazeModel) (lm : String)
    (bs num_test : Nat) (batches : List (List TestInput))
    (buf : List (ℚ × ℚ)) (s : Nat)
    (hloop : testLoop m lm bs (List.replicate num_test ((0 : ℚ), (0 : ℚ))) 0 batches =
      some (buf, s)) :
    ∃ res, Trainer.test m lm bs num_test batches = some res ∧
      (res.warned = true ↔ s ≠ num_test) ∧ res.file_written = true ∧
      res.rows = buf ∧ res.save_index = s := by
  refine ⟨TestOutcome.mk buf s (s != num_test) true, ?_, ?_, rfl, rfl, rfl⟩
  · rw [Trainer.test, hloop]
  · simp

theorem test_mismatch_warns_still_writes_witness :
    ∃ res, Trainer.test sampleModel "load_single_face" 2 3 [[sampleInput, sampleInput]] =
        some res ∧
      (res.warned = true ↔ (2 : Nat) ≠ 3) ∧ res.file_written = true ∧
      res.rows = [((1 : ℚ), (1 : ℚ)), ((1 : ℚ), (1 : ℚ)), ((0 : ℚ), (0 : ℚ))] ∧
      res.save_index = 2 :=
  test_mismatch_warns_still_writes sampleModel "load_single_face" 2 3
    [[sampleInput, sampleInput]]
    [((1 : ℚ), (1 : ℚ)), ((1 : ℚ), (1 : ℚ)), ((0 : ℚ), (0 : ℚ))] 2 (by decide)

/-- Claim C9: a `load_mode` other than the two recognized strings leaves
the prediction unassigned — the batch computation fails (`none`), crashing
the run at the first batch; under the precondition that the mode is one of
the two recognized strings this failure branch is unreachable: every batch
element yields a prediction. -/
theorem load_mode_validation_gap (m : GazeModel) (lm : String) (x : TestInput)
    (hbad1 : lm ≠ "load_single_face") (hbad2 : lm ≠ "load_multi_region") :
    computePred m lm x = none ∧
      ∀ (lm2 : String) (x2 : TestInput),
        (lm2 = "load_single_face" ∨ lm2 = "load_multi_region") →
        (computePred m lm2 x2).isSome := by
  constructor
  · simp [computePred, hbad1, hbad2]
  · intro lm2 x2 h
    exact computePred_isSome m lm2 x2 h

theorem load_mode_validation_gap_witness :
    computePred sampleModel "load_both_eyes" sampleInput = none ∧
      ∀ (lm2 : String) (x2 : TestInput),
        (lm2 = "load_single_face" ∨ lm2 = "load_multi_region") →
        (computePred sampleModel lm2 x2).isSome :=
  load_mode_validation_gap sampleModel "load_both_eyes" sampleInput
    (by decide) (by decide)

/-- Modelled from the spec: `utils.AverageMeter` is imported by
src/trainer.py but its file is not under src/.  Section 3 of the spec
describes it as a transient accumulator holding count, sum and current
value, whose average is the weighted mean of the updates since the last
reset. -/
structure AverageMeter where
  val : ℚ
  sum : ℚ
  count : ℚ
deriving DecidableEq, Repr

/-- Fresh (or just reset) meter: all accumulators zero. -/
def AverageMeter.init : AverageMeter := { val := 0, sum := 0, count := 0 }

/-- Record a value observed on `n` samples. -/
def AverageMeter.update (mtr : AverageMeter) (v n : ℚ) : AverageMeter :=
  { val := v, sum := mtr.sum + v * n, count := mtr.count + n }

/-- Running average of the meter. -/
def AverageMeter.avg (mtr : AverageMeter) : ℚ := mtr.sum / mtr.count

/-- Per-batch metric inputs of the training loop: mean angular error of the
batch, gaze loss, and the batch size `face_input_var.size()[0]`. -/
structure BatchMetrics where
  err : ℚ
  loss : ℚ
  n : ℚ
deriving DecidableEq, Repr

/-- Metric bookkeeping state of `train_one_epoch`: the two meters and the
log of reported (error, loss) averages. -/
structure EpochLogState where
  errors : AverageMeter
  losses_gaze : AverageMeter
  logs : List (ℚ × ℚ)
deriving DecidableEq, Repr

/-- Embedding of the metric bookkeeping of one batch iteration of
`Trainer.train_one_epoch` (src/trainer.py lines 158-201): update both
meters with the batch error and loss weighted by the batch size (lines
171, 177); then, when `i % print_freq == 0 and i != 0` (line 180), log the
running averages and reset both meters (lines 183-186, 198-199). -/
def processBatch (print_freq : Nat) (st : EpochLogState) (i : Nat)
    (b : BatchMetrics) : EpochLogState :=
  let errors := st.errors.update b.err b.n
  let losses := st.losses_gaze.update b.loss b.n
  if i % print_freq = 0 ∧ i ≠ 0 then
    { errors := AverageMeter.init
      losses_gaze := AverageMeter.init
      logs := st.logs ++ [(errors.avg, losses.avg)] }
  else
    { errors := errors, losses_gaze := losses, logs := st.logs }

/-- The batch loop of `train_one_epoch` from batch index `i` on. -/
def runEpochFrom (print_freq : Nat) (st : EpochLogState) (i : Nat) :
    List BatchMetrics → EpochLogState
  | [] => st
  | b :: rest => runEpochFrom print_freq (processBatch print_freq st i b) (i + 1) rest

/-- Claim C8: at every batch index `i` that is a nonzero multiple of the
print frequency the averages are logged and then both meters are reset; at
any other index nothing is logged or reset; and after such a reset the
average after the next single batch equals that batch value exactly.  The
last conjunct ties `processBatch` to the batch loop. -/
theorem running_average_reset (pf i : Nat) (st : EpochLogState)
    (b b2 : BatchMetrics) (rest : List BatchMetrics)
    (hres : i % pf = 0 ∧ i ≠ 0) (hn : b2.n ≠ 0) :
    (processBatch pf st i b).errors = AverageMeter.init ∧
    (processBatch pf st i b).losses_gaze = AverageMeter.init ∧
    (processBatch pf st i b).logs = st.logs ++
      [((st.errors.update b.err b.n).avg, (st.losses_gaze.update b.loss b.n).avg)] ∧
    ((processBatch pf st i b).errors.update b2.err b2.n).avg = b2.err ∧
    ((processBatch pf st i b).losses_gaze.update b2.loss b2.n).avg = b2.loss ∧
    (∀ (j : Nat) (c : BatchMetrics) (st2 : EpochLogState),
      ¬(j % pf = 0 ∧ j ≠ 0) →
      (processBatch pf st2 j c).errors = st2.errors.update c.err c.n ∧
      (processBatch pf st2 j c).losses_gaze = st2.losses_gaze.update c.loss c.n ∧
      (processBatch pf st2 j c).logs = st2.logs) ∧
    runEpochFrom pf st i (b :: b2 :: rest) =
      runEpochFrom pf (processBatch pf (processBatch pf st i b) (i + 1) b2)
        (i + 2) rest := by
  have havg : ∀ v n : ℚ, n ≠ 0 → (AverageMeter.init.update v n).avg = v := by
    intro v n hn0
    simp only [AverageMeter.init, AverageMeter.update, AverageMeter.avg,
      zero_add]
    rw [mul_div_assoc, div_self hn0, mul_one]
  have h1 : (processBatch pf st i b).errors = AverageMeter.init := by
    simp [processBatch, hres]
  have h2 : (processBatch pf st i b).losses_gaze = AverageMeter.init := by
    simp [processBatch, hres]
  refine ⟨h1, h2, ?_, ?_, ?_, ?_, ?_⟩
  · simp [processBatch, hres]
  · rw [h1]
    exact havg b2.err b2.n hn
  · rw [h2]
    exact havg b2.loss b2.n hn
  · intro j c st2 hnot
    simp [processBatch, hnot]
  · simp only [runEpochFrom]

/-- Sample mid-epoch metric state. -/
def wLogState : EpochLogState :=
  { errors := { val := 2, sum := 10, count := 4 }
    losses_gaze := { val := 1, sum := 6, count := 4 }
    logs := [] }

/-- Sample batch metrics at the reporting index. -/
def wBatchA : BatchMetrics := { err := 1, loss := 2, n := 2 }

/-- Sample batch metrics right after the reset. -/
def wBatchB : BatchMetrics := { err := 5, loss := 7, n := 1 }

theorem running_average_reset_witness :
    (processBatch 3 wLogState 3 wBatchA).errors = AverageMeter.init ∧
    (processBatch 3 wLogState 3 wBatchA).losses_gaze = AverageMeter.init ∧
    (processBatch 3 wLogState 3 wBatchA).logs = wLogState.logs ++
      [((wLogState.errors.update wBatchA.err wBatchA.n).avg,
        (wLogState.losses_gaze.update wBatchA.loss wBatchA.n).avg)] ∧
    ((processBatch 3 wLogState 3 wBatchA).errors.update wBatchB.err wBatchB.n).avg =
      wBatchB.err ∧
    ((processBatch 3 wLogState 3 wBatchA).losses_gaze.update wBatchB.loss
      wBatchB.n).avg = wBatchB.loss ∧
    (∀ (j : Nat) (c : BatchMetrics) (st2 : EpochLogState),
      ¬(j % 3 = 0 ∧ j ≠ 0) →
      (processBatch 3 st2 j c).errors = st2.errors.update c.err c.n ∧
      (processBatch 3 st2 j c).losses_gaze = st2.losses_gaze.update c.loss c.n ∧
      (processBatch 3 st2 j c).logs = st2.logs) ∧
    runEpochFrom 3 wLogState 3 [wBatchA, wBatchB] =
      runEpochFrom 3 (processBatch 3 (processBatch 3 wLogState 3 wBatchA) 4 wBatchB)
        5 [] :=
  running_average_reset 3 3 wLogState wBatchA wBatchB [] (by decide) (by decide)

/-- Modelled from the spec: `utils.py` with the gaze-vector conversion is
not under src/.  Spec glossary: a gaze vector is a 3-D unit vector derived
from (pitch, yaw) angles; the standard spherical form is used. -/
noncomputable def pitchyaw_to_vector (pitch yaw : ℝ) : ℝ × ℝ × ℝ :=
  (Real.cos pitch * Real.sin yaw, Real.sin pitch, Real.cos pitch * Real.cos yaw)

/-- Euclidean inner product on ℝ³ triples. -/
def dot3 (a b : ℝ × ℝ × ℝ) : ℝ := a.1 * b.1 + a.2.1 * b.2.1 + a.2.2 * b.2.2

/-- Euclidean norm on ℝ³ triples. -/
noncomputable def norm3 (a : ℝ × ℝ × ℝ) : ℝ :=
  Real.sqrt (a.1 ^ 2 + a.2.1 ^ 2 + a.2.2 ^ 2)

/-- Componentwise negation on ℝ³ triples. -/
def neg3 (a : ℝ × ℝ × ℝ) : ℝ × ℝ × ℝ := (-a.1, -a.2.1, -a.2.2)

/-- Modelled from the spec: `utils.angular_error` (imported on
src/trainer.py line 12, used on line 170) is not under src/.  Spec section
4.1: convert predicted and true (pitch, yaw) to 3-D unit gaze vectors, take
the arccosine of their normalized dot product, and report in degrees. -/
noncomputable def angular_error (pred act : ℝ × ℝ) : ℝ :=
  Real.arccos
      (dot3 (pitchyaw_to_vector pred.1 pred.2) (pitchyaw_to_vector act.1 act.2) /
        (norm3 (pitchyaw_to_vector pred.1 pred.2) *
          norm3 (pitchyaw_to_vector act.1 act.2))) * 180 / Real.pi

theorem dot3_pitchyaw_self (p y : ℝ) :
    dot3 (pitchyaw_to_vector p y) (pitchyaw_to_vector p y) = 1 := by
  have hy := Real.sin_sq_add_cos_sq y
  have hp := Real.sin_sq_add_cos_sq p
  simp only [dot3, pitchyaw_to_vector]
  linear_combination (Real.cos p ^ 2) * hy + hp

theorem norm3_pitchyaw (p y : ℝ) : norm3 (pitchyaw_to_vector p y) = 1 := by
  have hy := Real.sin_sq_add_cos_sq y
  have hp := Real.sin_sq_add_cos_sq p
  simp only [norm3, pitchyaw_to_vector]
  have h1 : (Real.cos p * Real.sin y) ^ 2 + Real.sin p ^ 2 +
      (Real.cos p * Real.cos y) ^ 2 = 1 := by
    linear_combination (Real.cos p ^ 2) * hy + hp
  rw [h1, Real.sqrt_one]

/-- Claim C4: the angular error of identical predicted and true pitch/yaw
pairs is 0 degrees, of pairs whose gaze vectors are orthogonal 90 degrees,
and of pairs with opposite gaze vectors 180 degrees. -/
theorem angular_error_extremes (p y p1 y1 p2 y2 p3 y3 p4 y4 : ℝ)
    (horth : dot3 (pitchyaw_to_vector p1 y1) (pitchyaw_to_vector p2 y2) = 0)
    (hopp : pitchyaw_to_vector p4 y4 = neg3 (pitchyaw_to_vector p3 y3)) :
    angular_error (p, y) (p, y) = 0 ∧
    angular_error (p1, y1) (p2, y2) = 90 ∧
    angular_error (p3, y3) (p4, y4) = 180 := by
  refine ⟨?_, ?_, ?_⟩
  · simp only [angular_error]
    rw [dot3_pitchyaw_self, norm3_pitchyaw, mul_one, div_one,
      Real.arccos_one, zero_mul, zero_div]
  · simp only [angular_error]
    rw [horth, norm3_pitchyaw, norm3_pitchyaw, mul_one, zero_div,
      Real.arccos_zero, div_eq_iff Real.pi_ne_zero]
    ring
  · have hd3 : dot3 (pitchyaw_to_vector p3 y3) (pitchyaw_to_vector p4 y4) = -1 := by
      have hself := dot3_pitchyaw_self p3 y3
      rw [hopp]
      simp only [dot3, neg3] at hself ⊢
      linear_combination -hself
    simp only [angular_error]
    rw [hd3, norm3_pitchyaw, norm3_pitchyaw, mul_one, div_one,
      Real.arccos_neg_one, div_eq_iff Real.pi_ne_zero]
    ring

theorem angular_error_extremes_witness :
    angular_error (0, 0) (0, 0) = 0 ∧
    angular_error (0, 0) (0, Real.pi / 2) = 90 ∧
    angular_error (0, 0) (0, Real.pi) = 180 :=
  angular_error_extremes 0 0 0 0 0 (Real.pi / 2) 0 0 0 Real.pi
    (by simp [pitchyaw_to_vector, dot3])
    (by simp [pitchyaw_to_vector, neg3])

end GazeTrainer
